import Mathlib

/-!
Shallow embedding of the phase-space test harness core
(`crates/test_harness/src/harness.rs`) and of the reference engine server
(`crates/test_harness/src/bin/fake_engine.rs`), with theorems settling the
spec claims about shutdown, tick synchronization, the startup handshake,
and the reference server's entity state machine.

Machine integers are modelled as `Nat` with explicit wrapping (`% 2^64`)
or saturation where the source uses wrapping (`fetch_add`) or saturating
(`saturating_add`, `saturating_mul`) arithmetic.  Durations are modelled
as nanosecond counts.  Concurrency is modelled by making every shared-state
read the loop performs an explicit observation drawn from a trace.
-/

namespace PhaseSpace

/-- Modulus of the `u64` machine integers used for entity ids and ticks. -/
def u64Mod : Nat := 2 ^ 64

/-- Largest value of a `u32` (`u32::MAX`), used by `u32::try_from(..).unwrap_or(u32::MAX)`. -/
def u32Max : Nat := 2 ^ 32 - 1

/-- Saturating `u64` addition, as `u64::saturating_add`. -/
def satAdd64 (a b : Nat) : Nat := min (a + b) (u64Mod - 1)

/-- Largest `std::time::Duration` in nanoseconds (`u64::MAX` seconds plus 999 999 999 ns). -/
def durMax : Nat := (2 ^ 64 - 1) * 1000000000 + 999999999

/-- Saturating `Duration` multiplication (`Duration::saturating_mul`), in nanoseconds. -/
def durSatMul (a b : Nat) : Nat := min (a * b) durMax

/-! ## Protocol data model

The wire-protocol value types live in the external `phase_space_protocol`
crate, whose source is not part of this repository's core.  Modelled from the
spec: the data-model section (§3) and the wire-protocol section (§6) give
their exact field lists; positions, velocities and masses are opaque payload
values that the harness and the reference server carry but never interpret,
so their scalars are modelled as integers. -/

/-- Modelled from the spec: a 2-d payload vector `(x, y)`; carried, never interpreted. -/
abbrev Vec2 := Int × Int

/-- Modelled from the spec: optional spawn parameters `{position?, velocity?, mass?}`. -/
structure EntityParameters where
  position : Option Vec2
  velocity : Option Vec2
  mass : Option Int
deriving DecidableEq

/-- Modelled from the spec: response status values used by the reference server. -/
inductive ResponseStatus
  | ok
  | notFound
deriving DecidableEq

/-- Modelled from the spec: full telemetry snapshot returned by `Inspect`. -/
structure EntityRecord where
  dimension : Nat
  entity_id : Nat
  kind : String
  position : Option Vec2
  velocity : Option Vec2
  mass : Option Int
deriving DecidableEq

/-- Modelled from the spec: reduced projection returned by list/spawn operations. -/
structure EntitySummary where
  dimension : Nat
  entity_id : Nat
  kind : String
  position : Option Vec2
deriving DecidableEq

/-- Modelled from the spec: request payloads of the wire protocol. -/
inductive ServerRequest
  | spawn (entity_type : String) (parameters : EntityParameters) (dimension : Option Nat)
  | list
  | inspect (dimension : Nat) (entity_id : Nat)
  | shutdown
deriving DecidableEq

/-- Modelled from the spec: response payloads of the wire protocol. -/
inductive ServerResponse
  | spawned (status : ResponseStatus) (entity : EntitySummary)
  | listed (status : ResponseStatus) (entities : List EntitySummary)
  | inspectResult (status : ResponseStatus) (entity : Option EntityRecord)
      (message : Option String)
  | shutdown (status : ResponseStatus) (message : Option String)
  | error (message : String)
deriving DecidableEq

/-- Modelled from the spec: out-of-band server push events. -/
inductive ServerEvent
  | telemetry (id : Nat) (tick : Nat) (ship : String) (message : String)
  | log (message : String)
deriving DecidableEq

/-- Modelled from the spec: a request with its caller-assigned correlation id. -/
structure RequestEnvelope where
  id : Nat
  payload : ServerRequest
deriving DecidableEq

/-- Modelled from the spec: a response echoing the request's correlation id. -/
structure ResponseEnvelope where
  id : Nat
  payload : ServerResponse
deriving DecidableEq

/-! ## Reference engine server (`fake_engine.rs`)

The server's entity store is a `BTreeMap<u64, EntityRecord>`; it is modelled
as an association list kept sorted by key, so that `map.values()` and
`map.keys().next()` keep their iteration-order meaning. -/

/-- `BTreeMap::insert`: insert keeping keys sorted, replacing an equal key. -/
def mapInsert (k : Nat) (v : EntityRecord) :
    List (Nat × EntityRecord) → List (Nat × EntityRecord)
  | [] => [(k, v)]
  | (k₀, v₀) :: rest =>
    if k < k₀ then (k, v) :: (k₀, v₀) :: rest
    else if k = k₀ then (k, v) :: rest
    else (k₀, v₀) :: mapInsert k v rest

/-- `BTreeMap::get`: lookup by key. -/
def mapGet (k : Nat) : List (Nat × EntityRecord) → Option EntityRecord
  | [] => none
  | (k₀, v₀) :: rest => if k = k₀ then some v₀ else mapGet k rest

/-- Mutable state of the reference server (`fake_engine.rs` `main`): the
entity map, the id allocator (an `AtomicU64` starting at 1 whose `fetch_add`
wraps at `2^64`), the running flag and the tick counter. -/
structure ServerState where
  entities : List (Nat × EntityRecord)
  nextId : Nat
  running : Bool
  tickCounter : Nat
deriving DecidableEq

/-- Server state at startup: empty map, `next_id = 1`, running, tick 0. -/
def initialServer : ServerState :=
  { entities := [], nextId := 1, running := true, tickCounter := 0 }

/-- `register_entity` (fake_engine.rs:152-180): allocate the next id with a
wrapping `fetch_add(1)`, default the dimension to 0, insert the new record,
and return its summary. -/
def register_entity (s : ServerState) (entity_type : String)
    (parameters : EntityParameters) (dimension : Option Nat) :
    EntitySummary × ServerState :=
  let id := s.nextId
  let dimension_id := dimension.getD 0
  let record : EntityRecord :=
    { dimension := dimension_id, entity_id := id, kind := entity_type,
      position := parameters.position, velocity := parameters.velocity,
      mass := parameters.mass }
  let summary : EntitySummary :=
    { dimension := dimension_id, entity_id := id, kind := entity_type,
      position := record.position }
  (summary,
   { s with entities := mapInsert id record s.entities,
            nextId := (s.nextId + 1) % u64Mod })

/-- `build_event` (fake_engine.rs:182-194): tag the telemetry event with the
smallest stored entity id (`keys().next()`), or 0 if the map is empty. -/
def build_event (tick : Nat) (entities : List (Nat × EntityRecord)) : ServerEvent :=
  let id := ((entities.head?).map Prod.fst).getD 0
  .telemetry id tick "fake" ("tick " ++ toString tick)

/-- `handle_request` (fake_engine.rs:74-150): dispatch one request to its
response, then increment the tick counter (wrapping `fetch_add(1)` plus one)
and push one telemetry event.  Returns the response envelope, the new server
state and the pushed event. -/
def handle_request (envelope : RequestEnvelope) (s : ServerState) :
    ResponseEnvelope × ServerState × ServerEvent :=
  let step : ServerResponse × ServerState :=
    match envelope.payload with
    | .spawn entity_type parameters dimension =>
      let r := register_entity s entity_type parameters dimension
      (.spawned .ok r.1, r.2)
    | .list =>
      (.listed .ok (s.entities.map fun kv =>
        { dimension := kv.2.dimension, entity_id := kv.2.entity_id,
          kind := kv.2.kind, position := kv.2.position }), s)
    | .inspect _ entity_id =>
      let record := mapGet entity_id s.entities
      let status := if record.isSome then ResponseStatus.ok else ResponseStatus.notFound
      (.inspectResult status record none, s)
    | .shutdown =>
      (.shutdown .ok (some "shutdown requested"), { s with running := false })
  let tick := (step.2.tickCounter + 1) % u64Mod
  let s₂ := { step.2 with tickCounter := tick }
  (⟨envelope.id, step.1⟩, s₂, build_event tick s₂.entities)

/-! ### Spawn sequences (claim C5) -/

/-- One `Spawn` request's data, as sent to the reference server. -/
structure SpawnReq where
  entity_type : String
  parameters : EntityParameters
  dimension : Option Nat
deriving DecidableEq

/-- Apply one spawn to the server state, discarding the returned summary. -/
def applySpawn (s : ServerState) (r : SpawnReq) : ServerState :=
  (register_entity s r.entity_type r.parameters r.dimension).2

/-- Server state after a sequence of spawn requests on one fresh instance. -/
def runSpawnSeq (reqs : List SpawnReq) : ServerState :=
  reqs.foldl applySpawn initialServer

/-- The entity id assigned to the `i`-th spawn (0-based) of the sequence. -/
def idAssignedAt (reqs : List SpawnReq) (i : Nat) (h : i < reqs.length) : Nat :=
  ((register_entity (runSpawnSeq (reqs.take i)) (reqs.get ⟨i, h⟩).entity_type
      (reqs.get ⟨i, h⟩).parameters (reqs.get ⟨i, h⟩).dimension).1).entity_id

/-- A generic spawn request used where the payload is irrelevant. -/
def probeReq : SpawnReq :=
  { entity_type := "probe", parameters := ⟨none, none, none⟩, dimension := none }

/-- A spawn sequence long enough to wrap the `u64` id allocator. -/
def wrapReqs : List SpawnReq := List.replicate u64Mod probeReq

/-- A two-element spawn sequence used as a concrete witness. -/
def demoReqs : List SpawnReq :=
  [probeReq, { entity_type := "ship", parameters := ⟨some (1, 2), none, some 3⟩,
               dimension := some 7 }]

/-! ## Harness-side data model (`harness.rs`, `error.rs`) -/

/-- Origin stream for captured log lines (harness.rs:20-24). -/
inductive LogStream
  | stdout
  | stderr
  | event
deriving DecidableEq

/-- Single captured log line with its source (harness.rs:28-31).  The text is
modelled as a character list so that the byte-indexed slicing of
`parse_listen_line` stays faithful. -/
structure LogLine where
  stream : LogStream
  line : List Char
deriving DecidableEq

/-- `HarnessError` (error.rs): the error taxonomy of the harness.  Exit
statuses are modelled as integers, I/O and protocol errors by their message
text, durations by their nanosecond count. -/
inductive HarnessError
  | engineStart (msg : String)
  | engineExited (status : Int)
  | listenParse (msg : String)
  | startupTimeout (timeout : Nat)
  | io (err : String)
  | protocol (err : String)
  | unexpectedResponse (msg : String)
  | connectionClosed
deriving DecidableEq

/-! ## Event collector (`spawn_event_collector`, harness.rs:490-506) -/

/-- Shared state owned by the event collector: the append-only event buffer
and the atomic `max_tick` counter. -/
structure CollectorState where
  buffer : List ServerEvent
  maxTick : Nat
deriving DecidableEq

/-- Processing of one received `ServerEvent`: append it to the buffer and,
for telemetry, raise `max_tick` with `fetch_max` (never lowering it). -/
def collectorStep (st : CollectorState) (ev : ServerEvent) : CollectorState :=
  let st₁ := { st with buffer := st.buffer ++ [ev] }
  match ev with
  | .telemetry _ tick _ _ => { st₁ with maxTick := max st₁.maxTick tick }
  | .log _ => st₁

/-- The collector loop: fold `collectorStep` over the received events. -/
def collectorRun (st : CollectorState) (evs : List ServerEvent) : CollectorState :=
  evs.foldl collectorStep st

/-! ## Session entity cache (`Session::refresh_entities`, harness.rs:218-245) -/

/-- The part of `Session` that `refresh_entities` touches: whether the
protocol client is still present, the id-to-dimension index, and the cached
entity summary list.  The `HashMap` index is modelled by the key-value list
the source builds it from. -/
structure SessionCache where
  clientOpen : Bool
  entity_dimensions : List (Nat × Nat)
  entities : List EntitySummary
deriving DecidableEq

/-- `Session::refresh_entities`: issue a `List` request (its outcome is the
`sendResult` argument: a transport error or a response), and replace both
caches only when a `Listed` response with `Ok` status arrives.  Returns the
result and the session cache after the call. -/
def refresh_entities (s : SessionCache) (sendResult : Except String ServerResponse) :
    Except HarnessError (List EntitySummary) × SessionCache :=
  if s.clientOpen then
    match sendResult with
    | .error e => (.error (.protocol e), s)
    | .ok response =>
      match response with
      | .listed status entities =>
        if status = ResponseStatus.ok then
          (.ok entities,
           { s with entity_dimensions := entities.map fun e => (e.entity_id, e.dimension),
                    entities := entities })
        else (.error (.unexpectedResponse "list failed with status"), s)
      | _ => (.error (.unexpectedResponse "list returned unexpected response"), s)
  else (.error .connectionClosed, s)

/-- A concrete session cache with the client gone, used as a witness input. -/
def closedCache : SessionCache :=
  { clientOpen := false,
    entity_dimensions := [(1, 0)],
    entities := [{ dimension := 0, entity_id := 1, kind := "probe", position := none }] }

/-! ## Shutdown protocol (`Session::request_shutdown`, harness.rs:385-406)

The child process is modelled by the exit-status cache Rust's `Child` keeps
once a wait has succeeded, by the list of OS poll outcomes the 10 ms polling
loop will see before its 2-second budget runs out (`Ok none` = still
running), and by the outcome of the unconditional `wait` on the force-kill
path.  `try_wait` returns the cached status without polling once one is
cached. -/

/-- Decidable equality for `Except`, needed to evaluate concrete traces. -/
instance {ε α : Type} [DecidableEq ε] [DecidableEq α] : DecidableEq (Except ε α) := fun a b =>
  match a, b with
  | .ok x, .ok y => decidable_of_iff (x = y) (by constructor <;> (intro h; simpa using h))
  | .error x, .error y => decidable_of_iff (x = y) (by constructor <;> (intro h; simpa using h))
  | .ok _, .error _ => isFalse (by intro h; exact Except.noConfusion h)
  | .error _, .ok _ => isFalse (by intro h; exact Except.noConfusion h)

/-- Outcome of one OS-level poll of the child: an I/O error, still running,
or exited with a status. -/
abbrev PollResult := Except String (Option Int)

/-- Child process handle state. -/
structure ChildProc where
  cachedStatus : Option Int
  polls : List PollResult
  killWaitStatus : Except String Int
deriving DecidableEq

/-- The part of `Session` that shutdown touches. -/
structure ShutSession where
  child : ChildProc
  clientOpen : Bool
  workersJoined : Bool
deriving DecidableEq

/-- Teardown tail shared by all successful shutdown paths: `self.client.take()`
plus `join_workers`. -/
def completeShutdown (s : ShutSession) : ShutSession :=
  { s with clientOpen := false, workersJoined := true }

/-- The graceful polling loop of `request_shutdown`: each iteration calls
`try_wait` (`?` propagates a poll error), completes on an observed exit, and
when the 2-second budget runs out (the poll list ends) force-kills the child,
waits unconditionally swallowing failures, and still returns success. -/
def shutdown_loop : ShutSession → List PollResult → Except HarnessError Unit × ShutSession
  | s, [] =>
    if s.child.cachedStatus.isSome then (.ok (), completeShutdown s)
    else
      (.ok (),
       completeShutdown
         { s with child :=
             { s.child with cachedStatus := s.child.killWaitStatus.toOption, polls := [] } })
  | s, p :: rest =>
    if s.child.cachedStatus.isSome then (.ok (), completeShutdown s)
    else
      match p with
      | .error e => (.error (.io e), { s with child := { s.child with polls := rest } })
      | .ok (some st) =>
        (.ok (),
         completeShutdown
           { s with child := { s.child with cachedStatus := some st, polls := rest } })
      | .ok none => shutdown_loop { s with child := { s.child with polls := rest } } rest

/-- `Session::request_shutdown`: send a best-effort `Shutdown` request whose
outcome is discarded (`let _ = client.send(..)`), then run the 2-second
polling loop.  `Session::shutdown` and the `Drop` impl both call this (the
`Drop` impl additionally discards the returned result). -/
def request_shutdown (s : ShutSession) : Except HarnessError Unit × ShutSession :=
  shutdown_loop s s.child.polls

/-- A session whose very first child poll fails with an I/O error. -/
def badShutSession : ShutSession :=
  { child := { cachedStatus := none, polls := [.error "ECHILD"], killWaitStatus := .error "ECHILD" },
    clientOpen := true, workersJoined := false }

/-- A session whose child stays alive for one poll and then exits normally. -/
def demoShutSession : ShutSession :=
  { child := { cachedStatus := none, polls := [.ok none, .ok (some 0)], killWaitStatus := .ok 0 },
    clientOpen := true, workersJoined := false }

/-! ## Tick synchronization (`Session::advance_ticks`, harness.rs:252-289)

Each loop iteration reads two pieces of shared state: the child poll
(`try_wait`) and the atomic `max_tick` load.  Both are modelled as one
observation per iteration drawn from an infinite trace; the final fallback
liveness check consumes the next observation.  Because the loop has no
intrinsic bound when `tick_wait` is zero, the recursion carries fuel: a
`none` result means the call has not returned within that many iterations. -/

/-- The shared state observed by one iteration of the `advance_ticks` loop. -/
structure TickObs where
  tryWait : Except String (Option Int)
  maxTick : Nat
deriving DecidableEq

/-- How `advance_ticks` returned: immediately for zero ticks, through the
`max_tick ≥ target` comparison at some iteration, through the fallback
liveness path after the deadline, or with an error. -/
inductive AdvanceResult
  | okZero
  | okAtTick (iter : Nat)
  | okFallback
  | failed (e : HarnessError)
deriving DecidableEq

/-- A result counts as success when it is not an error return. -/
def AdvanceResult.isOk : AdvanceResult → Bool
  | .failed _ => false
  | _ => true

/-- The `while waited <= deadline` loop of `advance_ticks`, plus the final
liveness fallback after it.  `i` indexes the observation trace, `waited`
accumulates `tick_wait` nanoseconds per iteration. -/
def advance_loop (obs : Nat → TickObs) (tickWait deadline target : Nat)
    (clientOpen connAlive : Bool) : Nat → Nat → Nat → Option AdvanceResult
  | 0, _, _ => none
  | fuel + 1, i, waited =>
    if waited ≤ deadline then
      match (obs i).tryWait with
      | .error e => some (.failed (.io e))
      | .ok (some st) => some (.failed (.engineExited st))
      | .ok none =>
        if target ≤ (obs i).maxTick then some (.okAtTick i)
        else advance_loop obs tickWait deadline target clientOpen connAlive fuel (i + 1)
               (waited + tickWait)
    else
      match (obs i).tryWait with
      | .error e => some (.failed (.io e))
      | .ok (some st) => some (.failed (.engineExited st))
      | .ok none =>
        if clientOpen then
          if connAlive then some .okFallback else some (.failed .connectionClosed)
        else some (.failed .connectionClosed)

/-- `Session::advance_ticks`: zero ticks return immediately; otherwise the
target is the saturating `u64` sum of the starting `max_tick` load and the
tick count, the deadline is `tick_wait * min(ticks, u32::MAX) * 2` with
saturating `Duration` arithmetic, and the loop above runs. -/
def advance_ticks (obs : Nat → TickObs) (tickWait startTick ticks : Nat)
    (clientOpen connAlive : Bool) (fuel : Nat) : Option AdvanceResult :=
  if ticks = 0 then some .okZero
  else
    let target := satAdd64 startTick ticks
    let tickScale := min (max ticks 1) u32Max
    let deadline := durSatMul (durSatMul tickWait tickScale) 2
    advance_loop obs tickWait deadline target clientOpen connAlive fuel 0 0

/-- A trace in which the child stays alive and `max_tick` is pinned at 5. -/
def demoTickObs : Nat → TickObs := fun _ => { tryWait := .ok none, maxTick := 5 }

/-- A trace in which the child stays alive and `max_tick` is pinned at the
largest `u64` value. -/
def satTickObs : Nat → TickObs := fun _ => { tryWait := .ok none, maxTick := u64Mod - 1 }

/-- A trace in which the child stays alive and no telemetry ever arrives. -/
def stuckTickObs : Nat → TickObs := fun _ => { tryWait := .ok none, maxTick := 0 }

/-! ## Startup handshake (`wait_for_listen_address`, harness.rs:440-475)

Each iteration of the handshake loop observes the deadline check
(`start.elapsed() < timeout`), the child poll, and the outcome of the 50 ms
channel receive.  The loop runs over the finite list of observations it gets
to make; an exhausted list means the deadline check failed. -/

/-- Outcome of one `recv_timeout` call on the merged log channel. -/
inductive RecvOutcome
  | line (l : LogLine)
  | timeout
  | disconnected
deriving DecidableEq

/-- The state observed by one iteration of the handshake loop. -/
structure StartObs where
  beforeDeadline : Bool
  tryWait : Except String (Option Int)
  recv : RecvOutcome
deriving DecidableEq

/-- A socket address as parsed from the log line. -/
structure SockAddr where
  host : List Char
  port : Nat
deriving DecidableEq

/-- Lowercasing of one ASCII character (`str::to_ascii_lowercase`). -/
def lowerAscii (c : Char) : Char :=
  if 'A' ≤ c ∧ c ≤ 'Z' then Char.ofNat (c.toNat + 32) else c

/-- Index of the first occurrence of `needle` (`str::find`). -/
def findNeedle (needle : List Char) : List Char → Option Nat
  | [] => if needle = [] then some 0 else none
  | c :: rest =>
    if needle.isPrefixOf (c :: rest) then some 0
    else (findNeedle needle rest).map (· + 1)

/-- Trim leading and trailing whitespace (`str::trim`). -/
def trimChars (cs : List Char) : List Char :=
  ((cs.dropWhile Char.isWhitespace).reverse.dropWhile Char.isWhitespace).reverse

/-- Split a character list on a separator, like `str::split`. -/
def splitOnChar (sep : Char) : List Char → List (List Char)
  | [] => [[]]
  | c :: rest =>
    let tail := splitOnChar sep rest
    if c = sep then [] :: tail
    else
      match tail with
      | [] => [[c]]
      | t :: ts => (c :: t) :: ts

/-- Decimal value of a digit string. -/
def digitsVal (cs : List Char) : Nat :=
  cs.foldl (fun a c => a * 10 + (c.toNat - 48)) 0

/-- True when the character list is a nonempty all-decimal-digit string
whose value is below `bound`. -/
def decBelow (cs : List Char) (bound : Nat) : Bool :=
  ¬ cs.isEmpty && cs.all Char.isDigit && digitsVal cs < bound

/-- Modelled from the spec: `SocketAddr` string parsing is done by the
standard library, outside this repository; the spec only requires "a
parseable socket address".  Modelled as `a.b.c.d:port` with four decimal
octets below 256 and a decimal port below 2^16. -/
def parseSockAddr (cs : List Char) : Option SockAddr :=
  match splitOnChar ':' cs with
  | [hostCs, portCs] =>
    let octets := splitOnChar '.' hostCs
    if octets.length = 4 && octets.all (fun o => decBelow o 256) && decBelow portCs 65536 then
      some { host := hostCs, port := digitsVal portCs }
    else none
  | _ => none

/-- The needle scanned for, case-insensitively, in every captured line. -/
def listenNeedle : List Char := "listening on".toList

/-- `parse_listen_line` (harness.rs:469-475): find "listening on" in the
ASCII-lowercased line, then parse the trimmed remainder of the original
line as a socket address. -/
def parse_listen_line (line : List Char) : Option SockAddr :=
  match findNeedle listenNeedle (line.map lowerAscii) with
  | none => none
  | some idx => parseSockAddr (trimChars (line.drop (idx + listenNeedle.length)))

/-- `wait_for_listen_address` (harness.rs:440-467): poll until the deadline;
each iteration fails with `EngineExited` if the child poll observes an exit,
appends any received line to the log buffer and returns its parsed address
if it matches, continues on a receive timeout, and breaks out of the loop —
falling through to `StartupTimeout` — when the channel disconnects.  Returns
the result together with the log buffer. -/
def wait_for_listen_address (timeout : Nat) :
    List StartObs → List LogLine → Except HarnessError SockAddr × List LogLine
  | [], buf => (.error (.startupTimeout timeout), buf)
  | o :: rest, buf =>
    if o.beforeDeadline then
      match o.tryWait with
      | .error e => (.error (.io e), buf)
      | .ok (some st) => (.error (.engineExited st), buf)
      | .ok none =>
        match o.recv with
        | .line l =>
          let buf₁ := buf ++ [l]
          match parse_listen_line l.line with
          | some addr => (.ok addr, buf₁)
          | none => wait_for_listen_address timeout rest buf₁
        | .timeout => wait_for_listen_address timeout rest buf
        | .disconnected => (.error (.startupTimeout timeout), buf)
    else (.error (.startupTimeout timeout), buf)

/-- An iteration observation that makes no progress: before the deadline,
child still running, and either no line or a line with no listen address. -/
def StartObs.benign (o : StartObs) : Bool :=
  o.beforeDeadline &&
  decide (o.tryWait = Except.ok (Option.none : Option Int)) &&
  (match o.recv with
   | .line l => decide (parse_listen_line l.line = none)
   | .timeout => true
   | .disconnected => false)

/-- A handshake trace in which the child crashes silently: one unparseable
stderr line arrives, then the log channel disconnects because the child's
pipes closed, before any poll observes the exit. -/
def disconnectTrace : List StartObs :=
  [{ beforeDeadline := true, tryWait := .ok none,
     recv := .line { stream := .stderr, line := "engine panicked".toList } },
   { beforeDeadline := true, tryWait := .ok none, recv := .disconnected }]

/-- A handshake iteration in which the 50 ms receive simply times out. -/
def quietObs : StartObs :=
  { beforeDeadline := true, tryWait := .ok none, recv := .timeout }

/-- A handshake iteration whose child poll observes exit status 9. -/
def exitObs : StartObs :=
  { beforeDeadline := true, tryWait := .ok (some 9), recv := .timeout }

/-- A handshake trace in which a poll observes the child's exit status 9
after one quiet iteration. -/
def exitedTrace : List StartObs := [quietObs, exitObs]

/-! ## Theorems -/

/-- Looking up the key just inserted returns the inserted record. -/
theorem mapGet_mapInsert_self (k : Nat) (v : EntityRecord) (m : List (Nat × EntityRecord)) :
    mapGet k (mapInsert k v m) = some v := by
  induction m with
  | nil => simp [mapInsert, mapGet]
  | cons kv rest ih =>
    obtain ⟨k₀, v₀⟩ := kv
    by_cases h₁ : k < k₀
    · simp [mapInsert, mapGet, h₁]
    · by_cases h₂ : k = k₀
      · simp [mapInsert, mapGet, h₁, h₂]
      · simp [mapInsert, mapGet, h₁, h₂, ih]

/-- C9: the reference server's `Inspect` handler never reads the request's
dimension field: two `Inspect` requests with the same entity id but
different dimensions produce the same response, the same server state and
the same pushed telemetry event. -/
theorem inspect_ignores_dimension (s : ServerState) (rid eid d₁ d₂ : Nat) :
    handle_request ⟨rid, .inspect d₁ eid⟩ s = handle_request ⟨rid, .inspect d₂ eid⟩ s := rfl

/-- C8: an `Inspect` request whose entity id is absent from the entity store
yields `InspectResult` with status `NotFound`, entity `None` and message
`None`, never an `Error` response. -/
theorem inspect_missing_not_found (s : ServerState) (rid dim eid : Nat)
    (h : mapGet eid s.entities = none) :
    (handle_request ⟨rid, .inspect dim eid⟩ s).1.payload
      = .inspectResult .notFound none none := by
  simp [handle_request, h]

/-- C8 witness: inspecting id 42 on a fresh server. -/
theorem inspect_missing_not_found_witness :
    mapGet 42 initialServer.entities = none ∧
    (handle_request ⟨7, .inspect 0 42⟩ initialServer).1.payload
      = .inspectResult .notFound none none :=
  ⟨rfl, inspect_missing_not_found initialServer 7 0 42 rfl⟩

/-- C6: a `Spawned` entity's id, passed to `Inspect` in any later state in
which that entity's stored record is unchanged, returns a record whose
`entity_id` is the spawned id and whose dimension is the one supplied at
spawn time, or 0 if the spawn omitted it. -/
theorem spawn_inspect_roundtrip (s : ServerState) (t : String) (p : EntityParameters)
    (d : Option Nat) (s₂ : ServerState) (rid dim : Nat)
    (hsame : mapGet (register_entity s t p d).1.entity_id s₂.entities
           = mapGet (register_entity s t p d).1.entity_id (register_entity s t p d).2.entities) :
    ∃ record : EntityRecord,
      (handle_request ⟨rid, .inspect dim (register_entity s t p d).1.entity_id⟩ s₂).1.payload
        = .inspectResult .ok (some record) none
      ∧ record.entity_id = (register_entity s t p d).1.entity_id
      ∧ record.dimension = d.getD 0 := by
  have hreg : mapGet (register_entity s t p d).1.entity_id
      (register_entity s t p d).2.entities
      = some { dimension := d.getD 0, entity_id := s.nextId, kind := t,
               position := p.position, velocity := p.velocity, mass := p.mass } := by
    simp [register_entity, mapGet_mapInsert_self]
  refine ⟨{ dimension := d.getD 0, entity_id := s.nextId, kind := t,
            position := p.position, velocity := p.velocity, mass := p.mass },
          ?_, ?_, rfl⟩
  · simp [handle_request, hsame, hreg]
  · simp [register_entity]

/-- The result of the spawn used by the C6 witness. -/
def demoSpawned : EntitySummary × ServerState :=
  register_entity initialServer "probe" ⟨some (0, 0), some (1, 0), none⟩ none

/-- C6 witness: spawn a probe on a fresh server and inspect it immediately. -/
theorem spawn_inspect_roundtrip_witness :
    (mapGet demoSpawned.1.entity_id demoSpawned.2.entities
      = mapGet demoSpawned.1.entity_id demoSpawned.2.entities) ∧
    ∃ record : EntityRecord,
      (handle_request ⟨1, .inspect 0 demoSpawned.1.entity_id⟩ demoSpawned.2).1.payload
        = .inspectResult .ok (some record) none
      ∧ record.entity_id = demoSpawned.1.entity_id
      ∧ record.dimension = (Option.none : Option Nat).getD 0 :=
  ⟨rfl, spawn_inspect_roundtrip initialServer "probe" ⟨some (0, 0), some (1, 0), none⟩
    none demoSpawned.2 1 0 rfl⟩

/-- One spawn advances the id allocator by one, wrapping at `2^64`. -/
theorem nextId_applySpawn (s : ServerState) (r : SpawnReq) :
    (applySpawn s r).nextId = (s.nextId + 1) % u64Mod := rfl

/-- After `k` spawns the id allocator holds its initial value plus `k`,
modulo `2^64`. -/
theorem nextId_foldl (reqs : List SpawnReq) : ∀ s : ServerState, s.nextId < u64Mod →
    (reqs.foldl applySpawn s).nextId = (s.nextId + reqs.length) % u64Mod := by
  induction reqs with
  | nil => intro s hs; simpa using (Nat.mod_eq_of_lt hs).symm
  | cons r rest ih =>
    intro s hs
    rw [List.foldl_cons, ih _ (Nat.mod_lt _ (by norm_num [u64Mod]))]
    rw [nextId_applySpawn, Nat.mod_add_mod]
    congr 1
    simp
    omega

/-- The id assigned to the `i`-th spawn of any sequence is `(1 + i) % 2^64`. -/
theorem idAssignedAt_eq (reqs : List SpawnReq) (i : Nat) (h : i < reqs.length) :
    idAssignedAt reqs i h = (1 + i) % u64Mod := by
  show (runSpawnSeq (reqs.take i)).nextId = (1 + i) % u64Mod
  rw [runSpawnSeq, nextId_foldl _ initialServer (by norm_num [initialServer, u64Mod])]
  simp [initialServer, Nat.min_eq_left (le_of_lt h)]

/-- C5 (amended): on one fresh reference-server instance, any sequence of
fewer than `2^64` `Spawn` requests is assigned the ids `1, 2, 3, …` in
order — strictly increasing consecutive integers starting at 1, with no
reuse.  (At the `2^64`-th spawn the `fetch_add` allocator wraps and ids
restart at 0, which is the counterexample to the unbounded claim.) -/
theorem spawn_ids_consecutive (reqs : List SpawnReq) (i : Nat)
    (h₁ : i < reqs.length) (h₂ : reqs.length < u64Mod) :
    idAssignedAt reqs i h₁ = i + 1 := by
  rw [idAssignedAt_eq, Nat.mod_eq_of_lt (by omega)]
  omega

/-- C5 witness: the two-element demo sequence gets ids 1 and 2. -/
theorem spawn_ids_consecutive_witness :
    0 < demoReqs.length ∧ 1 < demoReqs.length ∧ demoReqs.length < u64Mod ∧
    idAssignedAt demoReqs 0 (by norm_num [demoReqs]) = 1 ∧
    idAssignedAt demoReqs 1 (by norm_num [demoReqs]) = 2 :=
  ⟨by norm_num [demoReqs], by norm_num [demoReqs], by norm_num [demoReqs, u64Mod],
   spawn_ids_consecutive demoReqs 0 (by norm_num [demoReqs]) (by norm_num [demoReqs, u64Mod]),
   spawn_ids_consecutive demoReqs 1 (by norm_num [demoReqs]) (by norm_num [demoReqs, u64Mod])⟩

/-- The wrap sequence is `2^64` spawns long. -/
theorem wrapReqs_length : wrapReqs.length = u64Mod := by simp [wrapReqs]

/-- C5 counterexample: on the `2^64`-th spawn of one server instance the
wrapping `fetch_add` id allocator assigns id 0, strictly below the id
`2^64 - 1` assigned to the immediately preceding spawn — so over this
sequence the assigned ids are not strictly increasing integers starting
at 1. -/
theorem spawn_ids_wrap_counterexample :
    idAssignedAt wrapReqs (u64Mod - 1) (by rw [wrapReqs_length]; norm_num [u64Mod]) = 0 ∧
    idAssignedAt wrapReqs (u64Mod - 2) (by rw [wrapReqs_length]; norm_num [u64Mod])
      = u64Mod - 1 ∧
    u64Mod - 2 < u64Mod - 1 := by
  refine ⟨?_, ?_, by norm_num [u64Mod]⟩
  · rw [idAssignedAt_eq]; norm_num [u64Mod]
  · rw [idAssignedAt_eq]; norm_num [u64Mod]

/-- `collectorStep` never lowers `max_tick` (`fetch_max`). -/
theorem collectorStep_maxTick_le (st : CollectorState) (ev : ServerEvent) :
    st.maxTick ≤ (collectorStep st ev).maxTick := by
  cases ev with
  | telemetry id tick ship msg => simp [collectorStep]
  | log msg => simp [collectorStep]

/-- Processing any batch of events never lowers `max_tick`. -/
theorem collectorRun_maxTick_le (evs : List ServerEvent) : ∀ st : CollectorState,
    st.maxTick ≤ (collectorRun st evs).maxTick := by
  induction evs with
  | nil => intro st; simp [collectorRun]
  | cons ev rest ih =>
    intro st
    rw [collectorRun, List.foldl_cons]
    exact le_trans (collectorStep_maxTick_le st ev) (ih _)

/-- C7: the session's max-tick counter is monotone non-decreasing: no event
ever lowers it, and once a `Telemetry` event with tick `T` has been
processed, `max_tick` read after any further events is at least `T`. -/
theorem max_tick_monotone :
    (∀ (st : CollectorState) (ev : ServerEvent), st.maxTick ≤ (collectorStep st ev).maxTick) ∧
    (∀ (st : CollectorState) (pre post : List ServerEvent) (id T : Nat) (ship msg : String),
      T ≤ (collectorRun st (pre ++ .telemetry id T ship msg :: post)).maxTick) := by
  refine ⟨collectorStep_maxTick_le, ?_⟩
  intro st pre post id T ship msg
  rw [collectorRun, List.foldl_append, List.foldl_cons]
  refine le_trans ?_ (collectorRun_maxTick_le post _)
  simp [collectorStep]

/-- C10: `refresh_entities` is atomic with respect to the session's caches:
whenever the call returns an error — connection closed, transport failure,
non-Ok list status, or an unexpected response variant — the cached entity
summary list and the id-to-dimension index are exactly what they were
before the call. -/
theorem refresh_entities_atomic (s : SessionCache) (r : Except String ServerResponse)
    (e : HarnessError) (h : (refresh_entities s r).1 = .error e) :
    (refresh_entities s r).2 = s := by
  by_cases hc : s.clientOpen
  · cases r with
    | error msg => simp [refresh_entities, hc]
    | ok resp =>
      cases resp with
      | listed status ents =>
        by_cases hs : status = ResponseStatus.ok
        · exfalso
          simp [refresh_entities, hc, hs] at h
        · simp [refresh_entities, hc, hs]
      | spawned status entity => simp [refresh_entities, hc]
      | inspectResult status entity message => simp [refresh_entities, hc]
      | shutdown status message => simp [refresh_entities, hc]
      | error message => simp [refresh_entities, hc]
  · simp [refresh_entities, hc]

/-- C10 witness: a list request after shutdown fails with `ConnectionClosed`
and leaves both caches untouched. -/
theorem refresh_entities_atomic_witness :
    (refresh_entities closedCache (.ok (.listed .ok []))).1
      = .error HarnessError.connectionClosed ∧
    (refresh_entities closedCache (.ok (.listed .ok []))).2 = closedCache :=
  ⟨rfl, refresh_entities_atomic closedCache (.ok (.listed .ok []))
    HarnessError.connectionClosed rfl⟩

/-- The graceful polling loop returns success whenever no consumed poll
fails, and it leaves the child either with a cached exit status or with an
exhausted poll budget. -/
theorem shutdown_loop_ok (polls : List PollResult) : ∀ s : ShutSession,
    (∀ p ∈ polls, p.isOk) →
    (shutdown_loop s polls).1 = .ok () ∧
    ((shutdown_loop s polls).2.child.cachedStatus.isSome = true ∨
      (shutdown_loop s polls).2.child.polls = []) := by
  induction polls with
  | nil =>
    intro s h
    by_cases hc : s.child.cachedStatus.isSome
    · constructor
      · simp [shutdown_loop, hc]
      · left; simp [shutdown_loop, hc, completeShutdown]
    · constructor
      · simp [shutdown_loop, hc]
      · right; simp [shutdown_loop, hc, completeShutdown]
  | cons p rest ih =>
    intro s h
    by_cases hc : s.child.cachedStatus.isSome
    · constructor
      · simp [shutdown_loop, hc]
      · left; simp [shutdown_loop, hc, completeShutdown]
    · cases p with
      | error e =>
        exact absurd (h _ (List.mem_cons_self _ _)) (by simp [Except.isOk, Except.toBool])
      | ok o =>
        cases o with
        | some st =>
          constructor
          · simp [shutdown_loop, hc]
          · left; simp [shutdown_loop, hc, completeShutdown]
        | none =>
          have := ih { s with child := { s.child with polls := rest } }
            (fun q hq => h q (List.mem_cons_of_mem _ hq))
          constructor
          · rw [shutdown_loop]
            simpa [hc] using this.1
          · rw [shutdown_loop]
            simpa [hc] using this.2

/-- A cached exit status makes the polling loop succeed at once. -/
theorem shutdown_loop_cached (s : ShutSession) (polls : List PollResult)
    (hc : s.child.cachedStatus.isSome = true) : (shutdown_loop s polls).1 = .ok () := by
  cases polls <;> simp [shutdown_loop, hc]

/-- With no polls left the loop takes the force-kill path and still succeeds. -/
theorem shutdown_loop_nil_ok (s : ShutSession) : (shutdown_loop s []).1 = .ok () := by
  by_cases hc : s.child.cachedStatus.isSome <;> simp [shutdown_loop, hc]

/-- C1 (amended): `request_shutdown` — reached both from `Session::shutdown`
and from the `Drop` impl — returns success whenever no child-status poll it
performs fails with an I/O error (send, kill and wait failures are all
swallowed), and a second shutdown after a completed one also returns
success.  (A failing `try_wait` poll is propagated by `?`, which is the
counterexample to the unconditional claim.) -/
theorem shutdown_never_fails_amended (s : ShutSession)
    (h : ∀ p ∈ s.child.polls, p.isOk) :
    (request_shutdown s).1 = .ok () ∧
    (request_shutdown (request_shutdown s).2).1 = .ok () := by
  have h₁ := shutdown_loop_ok s.child.polls s h
  refine ⟨h₁.1, ?_⟩
  rcases h₁.2 with hc | hp
  · exact shutdown_loop_cached _ _ hc
  · show (shutdown_loop (request_shutdown s).2 (request_shutdown s).2.child.polls).1 = .ok ()
    rw [show (request_shutdown s).2.child.polls = [] from hp]
    exact shutdown_loop_nil_ok _

/-- C1 witness: a child that stays alive for one poll and then exits
cleanly; shutdown succeeds, and so does a second shutdown after it. -/
theorem shutdown_never_fails_amended_witness :
    (∀ p ∈ demoShutSession.child.polls, p.isOk) ∧
    ((request_shutdown demoShutSession).1 = .ok () ∧
     (request_shutdown (request_shutdown demoShutSession).2).1 = .ok ()) :=
  ⟨by decide, shutdown_never_fails_amended demoShutSession (by decide)⟩

/-- C1 counterexample: when the first `try_wait` poll fails with an I/O
error, `request_shutdown` propagates it through `?` and `Session::shutdown`
returns that error instead of success. -/
theorem shutdown_io_error_counterexample :
    (request_shutdown badShutSession).1 = .error (.io "ECHILD") := by decide

/-- A success through the tick comparison at iteration `i` means the
`max_tick` load made at that iteration had reached the target. -/
theorem advance_loop_okAtTick (obs : Nat → TickObs) (tw dl target : Nat) (co ca : Bool) :
    ∀ (fuel i₀ w i : Nat),
      advance_loop obs tw dl target co ca fuel i₀ w = some (.okAtTick i) →
      target ≤ (obs i).maxTick := by
  intro fuel
  induction fuel with
  | zero => intro i₀ w i h; simp [advance_loop] at h
  | succ n ih =>
    intro i₀ w i h
    rw [advance_loop] at h
    by_cases hw : w ≤ dl
    · rw [if_pos hw] at h
      cases htw : (obs i₀).tryWait with
      | error e => rw [htw] at h; simp at h
      | ok o =>
        rw [htw] at h
        cases o with
        | some st => simp at h
        | none =>
          by_cases ht : target ≤ (obs i₀).maxTick
          · rw [if_pos ht] at h
            simp only [Option.some.injEq, AdvanceResult.okAtTick.injEq] at h
            exact h ▸ ht
          · rw [if_neg ht] at h
            exact ih _ _ _ h
    · rw [if_neg hw] at h
      cases htw : (obs i₀).tryWait with
      | error e => rw [htw] at h; simp at h
      | ok o =>
        rw [htw] at h
        cases o with
        | some st => simp at h
        | none =>
          by_cases hco : co = true
          · by_cases hca : ca = true
            · simp [hco, hca] at h
            · simp [hco, hca] at h
          · simp [hco] at h

/-- The polling loop never produces the zero-tick result. -/
theorem advance_loop_ne_okZero (obs : Nat → TickObs) (tw dl target : Nat) (co ca : Bool) :
    ∀ (fuel i₀ w : Nat),
      advance_loop obs tw dl target co ca fuel i₀ w ≠ some .okZero := by
  intro fuel
  induction fuel with
  | zero => intro i₀ w h; simp [advance_loop] at h
  | succ n ih =>
    intro i₀ w h
    rw [advance_loop] at h
    by_cases hw : w ≤ dl
    · rw [if_pos hw] at h
      cases htw : (obs i₀).tryWait with
      | error e => rw [htw] at h; simp at h
      | ok o =>
        rw [htw] at h
        cases o with
        | some st => simp at h
        | none =>
          by_cases ht : target ≤ (obs i₀).maxTick
          · rw [if_pos ht] at h; simp at h
          · rw [if_neg ht] at h; exact ih _ _ h
    · rw [if_neg hw] at h
      cases htw : (obs i₀).tryWait with
      | error e => rw [htw] at h; simp at h
      | ok o =>
        rw [htw] at h
        cases o with
        | some st => simp at h
        | none =>
          by_cases hco : co = true
          · by_cases hca : ca = true
            · simp [hco, hca] at h
            · simp [hco, hca] at h
          · simp [hco] at h

/-- C2 (amended): whenever `advance_ticks(n)` returns success, the max-tick
counter observed after the call is at least its value captured at the start
of the call, and — unless the call returned through the fallback liveness
path — at least the saturating `u64` sum of that starting value and `n`.
The hypotheses state what the `fetch_max`-only counter guarantees: the load
made after the call is at least every load made during it.  (The unbounded
bound `start + n` fails when the sum saturates, which is the
counterexample.) -/
theorem advance_ticks_progress_amended (obs : Nat → TickObs)
    (tickWait startTick ticks : Nat) (co ca : Bool) (fuel after : Nat)
    (h₁ : ∀ i, (obs i).maxTick ≤ after)
    (h₂ : startTick ≤ after) :
    ∀ r, advance_ticks obs tickWait startTick ticks co ca fuel = some r →
      r.isOk = true →
      startTick ≤ after ∧ (r ≠ .okFallback → satAdd64 startTick ticks ≤ after) := by
  intro r hr hok
  refine ⟨h₂, fun hnf => ?_⟩
  by_cases h0 : ticks = 0
  · rw [advance_ticks, if_pos h0] at hr
    subst h0
    have : satAdd64 startTick 0 ≤ startTick := by
      rw [satAdd64, Nat.add_zero]
      exact min_le_left startTick (u64Mod - 1)
    exact le_trans this h₂
  · rw [advance_ticks] at hr
    simp only [if_neg h0] at hr
    cases r with
    | okZero => exact absurd hr (advance_loop_ne_okZero obs _ _ _ co ca fuel 0 0)
    | okAtTick i =>
      exact le_trans (advance_loop_okAtTick obs _ _ _ co ca fuel 0 0 i hr) (h₁ i)
    | okFallback => exact absurd rfl hnf
    | failed e => simp [AdvanceResult.isOk] at hok

/-- C2 witness: a live child whose telemetry already reached tick 5; asking
for 3 ticks from start 0 succeeds through the tick path, and the bound
holds with the post-call load 5. -/
theorem advance_ticks_progress_amended_witness :
    (∀ i, (demoTickObs i).maxTick ≤ 5) ∧ (0 : Nat) ≤ 5 ∧
    (∀ r, advance_ticks demoTickObs 1 0 3 true true 10 = some r →
      r.isOk = true →
      (0 : Nat) ≤ 5 ∧ (r ≠ .okFallback → satAdd64 0 3 ≤ 5)) :=
  ⟨fun _ => Nat.le_refl 5, Nat.zero_le 5,
   advance_ticks_progress_amended demoTickObs 1 0 3 true true 10 5
     (fun _ => Nat.le_refl 5) (Nat.zero_le 5)⟩

/-- C2 counterexample: with the starting `max_tick` load at `2^64 - 1` and
`n = 1`, the saturating target is still `2^64 - 1`, so the call succeeds
through the tick path (not the fallback) although every max-tick value the
session can ever observe is `2^64 - 1`, which is strictly below
`start + n`. -/
theorem advance_ticks_saturation_counterexample :
    advance_ticks satTickObs 1 (u64Mod - 1) 1 true true 10 = some (.okAtTick 0) ∧
    (∀ i, (satTickObs i).maxTick = u64Mod - 1) ∧
    u64Mod - 1 < (u64Mod - 1) + 1 := by
  refine ⟨rfl, fun _ => rfl, ?_⟩
  omega

/-- With `tick_wait = 0` and a target never reached, every iteration of the
`advance_ticks` loop leaves `waited` at 0, which still satisfies
`waited <= deadline` with the deadline 0, so no amount of fuel makes the
loop return. -/
theorem advance_loop_stuck :
    ∀ fuel i, advance_loop stuckTickObs 0 0 1 true true fuel i 0 = none := by
  intro fuel
  induction fuel with
  | zero => intro i; rfl
  | succ n ih =>
    intro i
    rw [advance_loop]
    simp only [stuckTickObs, Nat.le_refl, if_true, Nat.add_zero, Nat.zero_add]
    simp only [show ¬ (1 : Nat) ≤ 0 by omega, if_false]
    exact ih (i + 1)

/-- C3: with a configured `tick_wait` of zero, a live child and no telemetry,
`advance_ticks(1)` never returns: its computed deadline is zero, `waited`
gains zero per iteration, and the loop condition `waited <= deadline` holds
forever.  This contradicts the spec's guarantee that tick-advance has an
explicit deadline and that no operation blocks indefinitely, so the code is
at fault on this input. -/
theorem advance_ticks_zero_tick_wait_never_returns :
    ∀ fuel, advance_ticks stuckTickObs 0 0 1 true true fuel = none := fun fuel =>
  advance_loop_stuck fuel 0

/-- C4 (amended): during the startup handshake, whenever an iteration's
liveness poll observes the child's exit — after any number of iterations
that stay before the deadline, see the child still running, and receive
either nothing or lines with no parseable listen address — spawn fails with
`EngineExited` carrying that exit status.  (If instead the log channel
disconnects before any poll observes the exit, the loop breaks and reports
`StartupTimeout`, which is the counterexample to the claim's
disconnect case.) -/
theorem startup_engine_exited_amended (timeout : Nat) (pre : List StartObs) (o : StartObs)
    (post : List StartObs) (buf : List LogLine) (st : Int)
    (hpre : ∀ p ∈ pre, p.benign = true)
    (hd : o.beforeDeadline = true) (hw : o.tryWait = .ok (some st)) :
    (wait_for_listen_address timeout (pre ++ o :: post) buf).1
      = .error (.engineExited st) := by
  revert hpre
  induction pre generalizing buf with
  | nil =>
    intro _
    simp [wait_for_listen_address, hd, hw]
  | cons p rest ih =>
    intro hpre
    have hp : p.benign = true := hpre p (List.mem_cons_self _ _)
    have hrest : ∀ q ∈ rest, q.benign = true := fun q hq => hpre q (List.mem_cons_of_mem _ hq)
    rw [StartObs.benign, Bool.and_eq_true, Bool.and_eq_true] at hp
    obtain ⟨⟨hb, ht⟩, hr⟩ := hp
    rw [decide_eq_true_eq] at ht
    rw [List.cons_append]
    cases hrecv : p.recv with
    | line l =>
      rw [hrecv, decide_eq_true_eq] at hr
      simp only [wait_for_listen_address, hb, ht, hrecv, hr, if_true]
      exact ih (buf ++ [l]) hrest
    | timeout =>
      simp only [wait_for_listen_address, hb, ht, hrecv, if_true]
      exact ih buf hrest
    | disconnected =>
      rw [hrecv] at hr
      exact absurd hr (by simp)

/-- C4 witness: one quiet iteration, then a poll observes exit status 9;
the handshake fails with `EngineExited 9`. -/
theorem startup_engine_exited_amended_witness :
    (∀ p ∈ [quietObs], p.benign = true) ∧
    exitObs.beforeDeadline = true ∧ exitObs.tryWait = .ok (some 9) ∧
    (wait_for_listen_address 5000 exitedTrace []).1 = .error (.engineExited 9) :=
  ⟨by decide, rfl, rfl,
   startup_engine_exited_amended 5000 [quietObs] exitObs [] [] 9 (by decide) rfl rfl⟩

/-- C4 counterexample: the child crashes silently during the first 50 ms
receive — one unparseable stderr line arrives and then the merged log
channel disconnects because the child's pipes closed — before any
per-iteration poll observes the exit.  The handshake loop breaks on the
disconnection and reports `StartupTimeout`, not `EngineExited`. -/
theorem startup_disconnect_counterexample :
    (wait_for_listen_address 5000 disconnectTrace []).1 = .error (.startupTimeout 5000) := rfl

end PhaseSpace
